import Mathlib

/-!
Verification development for the AgriConnect marketplace.

The data model follows the SQL schema in
`supabase/migrations/20251016160138_create_agriconnect_schema.sql` and the
TypeScript row types in `src/lib/supabase.ts`.  Row-level-security policies
are embedded as boolean predicates over (requesting principal, row), check
constraints as boolean predicates over rows, and the client-side handlers
(`handlePlaceOrder`, `filterProducts`, `handleUpdateStatus` buttons,
`AddProductModal.handleSubmit`) as pure functions on those rows.
-/

namespace AgriConnect

/-- Principal / row identifiers (`uuid` columns). -/
abbrev Uuid := String

/-- A row of the `profiles` table (the columns the policies consult). -/
structure ProfileRow where
  id : Uuid
  user_type : String
  full_name : String
deriving DecidableEq

/-- A row of the `products` table. -/
structure ProductRow where
  id : Uuid
  farmer_id : Uuid
  name : String
  description : Option String
  category : String
  price : ℚ
  unit : String
  quantity_available : ℚ
  image_url : Option String
  location : Option String
  is_available : Bool
deriving DecidableEq

/-- A row of the `orders` table. -/
structure OrderRow where
  id : Uuid
  product_id : Uuid
  retailer_id : Uuid
  farmer_id : Uuid
  quantity : ℚ
  total_price : ℚ
  status : String
  payment_method : String
  delivery_address : String
  notes : Option String
deriving DecidableEq

/-- A row of the `messages` table. -/
structure MessageRow where
  id : Uuid
  sender_id : Uuid
  receiver_id : Uuid
  product_id : Option Uuid
  message : String
  is_read : Bool
deriving DecidableEq

/-- CHECK constraint on `profiles.user_type`. -/
def profilesRowCheck (p : ProfileRow) : Bool :=
  p.user_type == "farmer" || p.user_type == "retailer"

/-- CHECK constraints on `products` (`price >= 0`, `quantity_available >= 0`). -/
def productsRowCheck (r : ProductRow) : Bool :=
  decide (0 ≤ r.price) && decide (0 ≤ r.quantity_available)

/-- CHECK constraint on `orders.status`. -/
def ordersStatusCheck (s : String) : Bool :=
  s == "pending" || s == "accepted" || s == "rejected" || s == "completed"

/-- CHECK constraint on `orders.payment_method`. -/
def ordersPaymentCheck (s : String) : Bool :=
  s == "online" || s == "cash_on_delivery"

/-- CHECK constraints on `orders` (`quantity > 0`, `total_price >= 0`,
status and payment-method enums). -/
def ordersRowCheck (o : OrderRow) : Bool :=
  decide (0 < o.quantity) && decide (0 ≤ o.total_price)
    && ordersStatusCheck o.status && ordersPaymentCheck o.payment_method

/-- The correlated sub-check
`EXISTS (SELECT 1 FROM profiles WHERE id = auth.uid() AND user_type = 'farmer')`. -/
def profileIsFarmer (profiles : List ProfileRow) (uid : Uuid) : Bool :=
  profiles.any fun p => p.id == uid && p.user_type == "farmer"

/-- The correlated sub-check
`EXISTS (SELECT 1 FROM profiles WHERE id = auth.uid() AND user_type = 'retailer')`. -/
def profileIsRetailer (profiles : List ProfileRow) (uid : Uuid) : Bool :=
  profiles.any fun p => p.id == uid && p.user_type == "retailer"

/-- RLS policy "Anyone can view available products":
`USING (is_available = true OR farmer_id = auth.uid())`. -/
def productsSelectPolicy (uid : Uuid) (r : ProductRow) : Bool :=
  r.is_available == true || r.farmer_id == uid

/-- RLS policy "Farmers can insert own products":
`WITH CHECK (farmer_id = auth.uid() AND EXISTS (... user_type = 'farmer'))`. -/
def productsInsertPolicy (profiles : List ProfileRow) (uid : Uuid) (r : ProductRow) : Bool :=
  r.farmer_id == uid && profileIsFarmer profiles uid

/-- RLS policy "Users can view own orders". -/
def ordersSelectPolicy (uid : Uuid) (o : OrderRow) : Bool :=
  o.retailer_id == uid || o.farmer_id == uid

/-- RLS policy "Retailers can create orders":
`WITH CHECK (retailer_id = auth.uid() AND EXISTS (... user_type = 'retailer'))`. -/
def ordersInsertPolicy (profiles : List ProfileRow) (uid : Uuid) (o : OrderRow) : Bool :=
  o.retailer_id == uid && profileIsRetailer profiles uid

/-- `USING` clause of RLS policy "Order parties can update orders". -/
def ordersUpdateUsing (uid : Uuid) (o : OrderRow) : Bool :=
  o.retailer_id == uid || o.farmer_id == uid

/-- `WITH CHECK` clause of RLS policy "Order parties can update orders". -/
def ordersUpdateWithCheck (uid : Uuid) (o : OrderRow) : Bool :=
  o.retailer_id == uid || o.farmer_id == uid

/-- RLS policy "Users can send messages": `WITH CHECK (sender_id = auth.uid())`. -/
def messagesInsertPolicy (uid : Uuid) (m : MessageRow) : Bool :=
  m.sender_id == uid

/-- A SELECT on `products` as principal `uid`: rows failing the policy are
silently filtered out of the result set. -/
def readProducts (uid : Uuid) (rows : List ProductRow) : List ProductRow :=
  rows.filter (productsSelectPolicy uid)

/-- Whether the storage layer permits principal `uid` to replace order row
`pre` with `post`: the update policy's USING clause on the pre-state, its
WITH CHECK clause on the post-state, and the table's CHECK constraints. -/
def orderUpdatePermitted (uid : Uuid) (pre post : OrderRow) : Bool :=
  ordersUpdateUsing uid pre && ordersUpdateWithCheck uid post && ordersRowCheck post

/-- An INSERT on `orders` as principal `uid`: the row is appended only when
the CHECK constraints and the insert policy hold; otherwise the whole
operation is rejected and the table is untouched. -/
def insertOrder (profiles : List ProfileRow) (uid : Uuid) (orders : List OrderRow)
    (o : OrderRow) : Option (List OrderRow) :=
  if ordersRowCheck o && ordersInsertPolicy profiles uid o then some (orders ++ [o])
  else none

/-- The row built by `handlePlaceOrder` in `ProductDetailModal` for
`supabase.from('orders').insert({...})`. -/
structure OrderInsertPayload where
  product_id : Uuid
  retailer_id : Uuid
  farmer_id : Uuid
  quantity : ℚ
  total_price : ℚ
  status : String
  payment_method : String
  delivery_address : String
  notes : Option String
deriving DecidableEq

/-- `handlePlaceOrder` from `ProductDetailModal`: computes
`totalPrice = quantity * product.price` and inserts the order with
`status: 'pending'`, `farmer_id: product.farmer_id`,
`retailer_id: user?.id`, `notes: orderData.notes || null`. -/
def handlePlaceOrder (userId : Uuid) (product : ProductRow) (quantity : ℚ)
    (paymentMethod deliveryAddress notes : String) : OrderInsertPayload :=
  { product_id := product.id
    retailer_id := userId
    farmer_id := product.farmer_id
    quantity := quantity
    total_price := quantity * product.price
    status := "pending"
    payment_method := paymentMethod
    delivery_address := deliveryAddress
    notes := if notes == "" then none else some notes }

/-- The status-update actions the `Orders` screen offers for an order:
Accept/Reject buttons only when the viewer is the farmer and the order is
`pending`; a Complete button only when the viewer is the farmer and the
order is `accepted` (from the conditional rendering in `Orders.tsx`). -/
def uiStatusActions (userType status : String) : List String :=
  (if userType == "farmer" && status == "pending" then ["accepted", "rejected"] else [])
    ++ (if userType == "farmer" && status == "accepted" then ["completed"] else [])

/-- `q` occurs at the head of `hay` (character-by-character comparison). -/
def charsLeadMatch : List Char → List Char → Bool
  | [], _ => true
  | _ :: _, [] => false
  | a :: as, b :: bs => a == b && charsLeadMatch as bs

/-- `q` occurs contiguously somewhere in the character list
(JavaScript `String.prototype.includes`). -/
def charsHasSub (q : List Char) : List Char → Bool
  | [] => charsLeadMatch q []
  | c :: cs => charsLeadMatch q (c :: cs) || charsHasSub q cs

/-- `hay.includes(q)`: substring containment on strings. -/
def strIncludes (hay q : String) : Bool :=
  charsHasSub q.data hay.data

/-- JavaScript `String.prototype.toLowerCase`, character by character. -/
def strToLower (s : String) : String :=
  ⟨s.data.map Char.toLower⟩

/-- The search predicate of `filterProducts` in `Marketplace.tsx`:
`p.name.toLowerCase().includes(query) || p.description?.toLowerCase().includes(query)
|| p.location?.toLowerCase().includes(query)` (an absent optional field
contributes false). -/
def productMatchesQuery (query : String) (p : ProductRow) : Bool :=
  strIncludes (strToLower p.name) query
    || (match p.description with
        | some d => strIncludes (strToLower d) query
        | none => false)
    || (match p.location with
        | some l => strIncludes (strToLower l) query
        | none => false)

/-- `filterProducts` from `Marketplace.tsx`: narrow by category equality
unless the selected category is `'All'`, then, when the search query is
non-empty, by the lowercased substring predicate above. -/
def filterProducts (products : List ProductRow) (selectedCategory searchQuery : String) :
    List ProductRow :=
  let filtered :=
    if selectedCategory ≠ "All" then
      products.filter fun p => p.category == selectedCategory
    else products
  if searchQuery ≠ "" then
    filtered.filter (productMatchesQuery (strToLower searchQuery))
  else filtered

/-- The `productData` object built by `handleSubmit` in
`AddProductModal.tsx`: exactly the eight columns sent in the update payload
(`image_url` and `location` are `formData.x || null`). -/
structure ProductData where
  name : String
  description : String
  category : String
  price : ℚ
  unit : String
  quantity_available : ℚ
  image_url : Option String
  location : Option String
deriving DecidableEq

/-- Effect on an existing `products` row of
`supabase.from('products').update(productData).eq('id', product.id)`:
only the columns present in `productData` are assigned. -/
def applyProductUpdate (p : ProductRow) (d : ProductData) : ProductRow :=
  { p with
    name := d.name
    description := some d.description
    category := d.category
    price := d.price
    unit := d.unit
    quantity_available := d.quantity_available
    image_url := d.image_url
    location := d.location }

/-- A concrete `rejected` order between farmer `f1` and retailer `r1`. -/
def sampleRejectedOrder : OrderRow :=
  { id := "o1", product_id := "p1", retailer_id := "r1", farmer_id := "f1"
    quantity := 1, total_price := 20, status := "rejected"
    payment_method := "online", delivery_address := "addr", notes := none }

/-- The same order with its status rewritten to `accepted`. -/
def sampleReopenedOrder : OrderRow :=
  { sampleRejectedOrder with status := "accepted" }

/-- Expansion of `productMatchesQuery` into the three explicit cases. -/
theorem productMatchesQuery_iff (query : String) (p : ProductRow) :
    productMatchesQuery query p = true ↔
      strIncludes (strToLower p.name) query = true
        ∨ (∃ d, p.description = some d ∧ strIncludes (strToLower d) query = true)
        ∨ (∃ l, p.location = some l ∧ strIncludes (strToLower l) query = true) := by
  rcases p with ⟨i, f, n, d, c, pr, u, qa, im, loc, av⟩
  cases d <;> cases loc <;>
    simp [productMatchesQuery, Bool.or_eq_true, or_assoc]

/-- Claim C1: an authenticated principal's read of the products table
returns exactly the rows whose availability flag is true or whose owning
farmer is the principal; all other rows are silently filtered out of the
result list rather than causing an error. -/
theorem products_read_visibility (uid : Uuid) (rows : List ProductRow) (p : ProductRow) :
    p ∈ readProducts uid rows ↔
      p ∈ rows ∧ (p.is_available = true ∨ p.farmer_id = uid) := by
  simp [readProducts, List.mem_filter, productsSelectPolicy, Bool.or_eq_true]

/-- Claim C3: the orders insert policy admits a row exactly when its
`retailer_id` is the requesting principal and some profile row gives that
principal the retailer role; in particular any insert whose `retailer_id`
differs from the requester is rejected. -/
theorem orders_insert_policy_iff (profiles : List ProfileRow) (uid : Uuid) (o : OrderRow) :
    ordersInsertPolicy profiles uid o = true ↔
      o.retailer_id = uid ∧ ∃ p ∈ profiles, p.id = uid ∧ p.user_type = "retailer" := by
  simp [ordersInsertPolicy, profileIsRetailer, List.any_eq_true, Bool.and_eq_true]

/-- Claim C4: the products insert policy admits a row exactly when its
`farmer_id` is the requesting principal and some profile row gives that
principal the farmer role; violating either conjunct alone rejects the
insert. -/
theorem products_insert_policy_iff (profiles : List ProfileRow) (uid : Uuid) (r : ProductRow) :
    productsInsertPolicy profiles uid r = true ↔
      r.farmer_id = uid ∧ ∃ p ∈ profiles, p.id = uid ∧ p.user_type = "farmer" := by
  simp [productsInsertPolicy, profileIsFarmer, List.any_eq_true, Bool.and_eq_true]

/-- Claim C7: the messages insert policy admits a row exactly when its
`sender_id` is the requesting principal, so a message whose `receiver_id`
is the requester but whose `sender_id` is forged to another identity is
rejected. -/
theorem messages_insert_policy_iff (uid : Uuid) (m : MessageRow) :
    messagesInsertPolicy uid m = true ↔ m.sender_id = uid := by
  simp [messagesInsertPolicy]

/-- Claim C5: every order built by `handlePlaceOrder` has status
`pending` and total price equal to the ordered quantity times the
listing's unit price. -/
theorem handlePlaceOrder_pending_total (userId : Uuid) (product : ProductRow)
    (quantity : ℚ) (paymentMethod deliveryAddress notes : String) :
    (handlePlaceOrder userId product quantity paymentMethod deliveryAddress notes).status
        = "pending"
      ∧ (handlePlaceOrder userId product quantity paymentMethod deliveryAddress
          notes).total_price = quantity * product.price :=
  ⟨rfl, rfl⟩

/-- Instance of claim C5's scenario: quantity 5 at unit price 20 yields
total price 100 and status `pending`. -/
theorem handlePlaceOrder_example :
    (handlePlaceOrder "r1"
        { id := "p1", farmer_id := "f1", name := "Tomatoes", description := none
          category := "Vegetables", price := 20, unit := "kg"
          quantity_available := 100, image_url := none, location := none
          is_available := true }
        5 "online" "addr" "").total_price = 100 := by
  norm_num [handlePlaceOrder]

/-- Claim C6: the order row built at creation time by `handlePlaceOrder`
carries exactly the referenced listing's `farmer_id`. -/
theorem handlePlaceOrder_farmer_id (userId : Uuid) (product : ProductRow)
    (quantity : ℚ) (paymentMethod deliveryAddress notes : String) :
    (handlePlaceOrder userId product quantity paymentMethod deliveryAddress
        notes).farmer_id = product.farmer_id :=
  rfl

/-- Claim C10: updating an existing listing through the product modal
assigns only the eight payload columns and leaves the row's `farmer_id`,
`is_available` flag and id untouched. -/
theorem applyProductUpdate_frame (p : ProductRow) (d : ProductData) :
    (applyProductUpdate p d).farmer_id = p.farmer_id
      ∧ (applyProductUpdate p d).is_available = p.is_available
      ∧ (applyProductUpdate p d).id = p.id :=
  ⟨rfl, rfl, rfl⟩

/-- Claim C2 counterexample: the storage-level update policy permits the
farmer party to move a `rejected` order back to `accepted` (the policy only
checks party membership and the status enum), so `rejected` is not terminal
under the update operations permitted to the order's parties. -/
theorem rejected_order_update_permitted :
    sampleRejectedOrder.status = "rejected"
      ∧ orderUpdatePermitted "f1" sampleRejectedOrder sampleReopenedOrder = true
      ∧ sampleReopenedOrder.status ≠ sampleRejectedOrder.status := by
  refine ⟨rfl, by decide, by decide⟩

/-- Claim C2 (amended): the client's order screen offers no further
status-update action once an order is `rejected` or `completed` — the
terminal discipline is enforced only by the UI's conditional rendering,
while the storage layer itself still permits either party to change a
terminal status. -/
theorem ui_terminal_no_actions (userType status : String)
    (h : status = "rejected" ∨ status = "completed") :
    uiStatusActions userType status = [] := by
  rcases h with h | h <;> subst h <;>
    simp [uiStatusActions]

/-- Witness for the amended claim C2 at a concrete viewer and status. -/
theorem ui_terminal_no_actions_witness :
    uiStatusActions "farmer" "rejected" = [] :=
  ui_terminal_no_actions "farmer" "rejected" (Or.inl rfl)

/-- Claim C8: an order insert whose quantity is zero or negative, or whose
total price is negative, is rejected by the check constraints with no
effect on the table, and a successful insert entails quantity > 0 and
total_price ≥ 0. -/
theorem insertOrder_quantity_price_guard (profiles : List ProfileRow) (uid : Uuid)
    (orders : List OrderRow) (o : OrderRow) :
    (o.quantity ≤ 0 ∨ o.total_price < 0 → insertOrder profiles uid orders o = none)
      ∧ (∀ res, insertOrder profiles uid orders o = some res →
          0 < o.quantity ∧ 0 ≤ o.total_price) := by
  constructor
  · intro h
    have hrc : ordersRowCheck o = false := by
      rcases h with h | h
      · simp [ordersRowCheck, not_lt.mpr h]
      · simp [ordersRowCheck, not_le.mpr h]
    simp [insertOrder, hrc]
  · intro res hres
    simp only [insertOrder] at hres
    split at hres
    · rename_i hcond
      rw [Bool.and_eq_true] at hcond
      have hc := hcond.1
      simp only [ordersRowCheck, Bool.and_eq_true, decide_eq_true_eq] at hc
      exact hc.1.1
    · cases hres

/-- An order row violating the `quantity > 0` check constraint. -/
def zeroQuantityOrder : OrderRow :=
  { id := "o0", product_id := "p0", retailer_id := "r0", farmer_id := "f0"
    quantity := 0, total_price := 10, status := "pending"
    payment_method := "online", delivery_address := "a", notes := none }

/-- Witness for claim C8: inserting a zero-quantity order is rejected. -/
theorem insertOrder_quantity_price_guard_witness :
    insertOrder [] "r0" [] zeroQuantityOrder = none :=
  (insertOrder_quantity_price_guard [] "r0" [] zeroQuantityOrder).1
    (Or.inl (by norm_num [zeroQuantityOrder]))

/-- Claim C9: the marketplace filter keeps exactly the listings whose
category equals the selected one (no restriction when it is `'All'`) and
which, for a non-empty query, contain the lowercased query as a substring
of their lowercased name, description or location; it is a filter, with no
ranking. -/
theorem filterProducts_spec (products : List ProductRow) (c q : String) (p : ProductRow) :
    p ∈ filterProducts products c q ↔
      p ∈ products
        ∧ (c = "All" ∨ p.category = c)
        ∧ (q = ""
            ∨ strIncludes (strToLower p.name) (strToLower q) = true
            ∨ (∃ d, p.description = some d ∧ strIncludes (strToLower d) (strToLower q) = true)
            ∨ (∃ l, p.location = some l ∧ strIncludes (strToLower l) (strToLower q) = true)) := by
  by_cases hc : c = "All" <;> by_cases hq : q = "" <;>
    simp [filterProducts, hc, hq, List.mem_filter, productMatchesQuery_iff, and_assoc,
      and_comm, and_left_comm]

end AgriConnect
